import Mathlib

/-!
Verification development for the research-lab application
(`src/streamlit_app.py`): a shallow embedding in Lean 4 of the
recursive markdown renderer (`dict_to_markdown`, lines 202-226), the
session store of research results (lines 46-56, 61-68, 146-152), the
view selection logic (lines 107-109 and 188-198), and the
`conduct_research` coordinator (lines 123-163), together with theorems
settling the specification's claims about them.
-/

/-! ## Data model

The renderer receives the JSON-decoded `research['results']` value:
a Python `dict`, `list`, or scalar (`str`, `int`, `float`, `bool`,
`None`).  The source inspects a value only through `isinstance(_, dict)`,
`isinstance(_, list)`, `isinstance(_, str)` and its `str()` textual form
(f-string interpolation), so a scalar is embedded as the pair of its
`isinstance(_, str)` flag and its textual form: `0.9` becomes
`.scalar false "0.9"`, `"**done**"` becomes `.scalar true "**done**"`,
`True` becomes `.scalar false "True"`, `None` becomes
`.scalar false "None"`.  Python 3.7+ dicts preserve insertion order, so
a dict is an ordered association list. -/
inductive PyVal where
  | scalar (isStr : Bool) (text : String)
  | list (items : List PyVal)
  | dict (entries : List (String × PyVal))

/-- Boolean list-prefix test, used to embed Python's substring operator. -/
def isPrefixB : List Char → List Char → Bool
  | [], _ => true
  | _ :: _, [] => false
  | a :: as, b :: bs => a == b && isPrefixB as bs

/-- Boolean list-infix test: does `needle` occur contiguously in the list? -/
def isInfixB (needle : List Char) : List Char → Bool
  | [] => isPrefixB needle []
  | c :: rest => isPrefixB needle (c :: rest) || isInfixB needle rest

/-- Python's substring operator `needle in hay` on strings. -/
def pyIn (needle hay : String) : Bool := isInfixB needle.data hay.data

/-- Line 213: `any(marker in value for marker in ['###', '##', '#', '**', '-'])`,
the fixed set of recognized markup-indicator substrings, checked in source
order. -/
def hasMarkdownMarker (s : String) : Bool :=
  pyIn "###" s || pyIn "##" s || pyIn "#" s || pyIn "**" s || pyIn "-" s

/-- Line 204: `indent = "  " * level`, two spaces per nesting level. -/
def pyIndent (level : Nat) : String := String.mk (List.replicate (2 * level) ' ')

/-- Lines 211-216: rendering of one `(key, value)` dict entry whose value is
not a dict or list.  A string value containing a recognized markup indicator
is emitted verbatim after its heading; any other value (including every
non-string scalar) is wrapped in a fenced code block. -/
def renderScalarEntry (k : String) (isStr : Bool) (t : String) (level : Nat) : String :=
  if isStr && hasMarkdownMarker t then
    pyIndent level ++ "### " ++ k ++ "\n\n" ++ t ++ "\n\n"
  else
    pyIndent level ++ "### " ++ k ++ "\n\n```\n" ++ t ++ "\n```\n\n"

mutual

/-- Lines 202-226: `dict_to_markdown(d, level)`.  A dict renders its entries
in order (lines 206-216); a list renders its items in order and appends one
newline after the loop (lines 217-223); any other value renders as
`f"{indent}{d}\n\n"` (lines 224-225).  The recursion carries no depth
counter, bound, or truncation: it is structural on the tree. -/
def dict_to_markdown : PyVal → Nat → String
  | .dict kvs, level => renderEntries kvs level
  | .list items, level => renderItems items level ++ "\n"
  | .scalar _ t, level => pyIndent level ++ t ++ "\n\n"

/-- Lines 207-216: the dict loop.  An entry whose value is itself a dict or
list gets a `### key` heading followed by the recursive rendering at
`level + 1`; a scalar entry is rendered by `renderScalarEntry`.  The heading
marker is the fixed literal `### ` at every level. -/
def renderEntries : List (String × PyVal) → Nat → String
  | [], _ => ""
  | (k, v) :: rest, level =>
    (match v with
     | .dict kvs =>
       pyIndent level ++ "### " ++ k ++ "\n\n" ++ dict_to_markdown (.dict kvs) (level + 1)
     | .list xs =>
       pyIndent level ++ "### " ++ k ++ "\n\n" ++ dict_to_markdown (.list xs) (level + 1)
     | .scalar isStr t => renderScalarEntry k isStr t level)
    ++ renderEntries rest level

/-- Lines 218-222: the list loop.  An item that is itself a dict or list is
recursively rendered at the *same* level (line 220 passes `level`, not
`level + 1`) with no bullet; a scalar item becomes the bullet line
`f"{indent}- {item}\n"`. -/
def renderItems : List PyVal → Nat → String
  | [], _ => ""
  | x :: rest, level =>
    (match x with
     | .dict kvs => dict_to_markdown (.dict kvs) level
     | .list xs => dict_to_markdown (.list xs) level
     | .scalar _ t => pyIndent level ++ "- " ++ t ++ "\n")
    ++ renderItems rest level

end

/-- Concatenation of a list of strings (helper for stating list-rendering
results). -/
def strConcat : List String → String
  | [] => ""
  | s :: rest => s ++ strConcat rest

mutual

/-- Nesting depth of a value: scalars have depth `0`, a dict or list is one
deeper than its deepest child. -/
def treeDepth : PyVal → Nat
  | .scalar _ _ => 0
  | .list xs => depthItems xs + 1
  | .dict kvs => depthEntries kvs + 1

def depthItems : List PyVal → Nat
  | [] => 0
  | x :: rest => max (treeDepth x) (depthItems rest)

def depthEntries : List (String × PyVal) → Nat
  | [] => 0
  | (_, v) :: rest => max (treeDepth v) (depthEntries rest)

end

/-- A chain of `n` nested single-entry dicts around the string scalar
`"x"`: the canonical finite tree of nesting depth `n`. -/
def nestTree : Nat → PyVal
  | 0 => .scalar true "x"
  | n + 1 => .dict [("k", nestTree n)]

/-! ## Focus-area parsing (line 134) -/

/-- Worker for Python's `str.split(",")`: `acc` holds the current field
reversed. -/
def splitCommaAux : List Char → List Char → List String
  | [], acc => [String.mk acc.reverse]
  | c :: cs, acc =>
    if c == ',' then String.mk acc.reverse :: splitCommaAux cs []
    else splitCommaAux cs (c :: acc)

/-- Python's `focus_areas.split(",")`: fields between commas, empty fields
kept (`"a,,b,".split(",") == ["a", "", "b", ""]`). -/
def pySplitComma (s : String) : List String := splitCommaAux s.data []

/-- The ASCII whitespace characters stripped by Python's `str.strip()`. -/
def isPySpace (c : Char) : Bool :=
  c == ' ' || c == '\t' || c == '\n' || c == '\r' || c == '\x0b' || c == '\x0c'

/-- Drop leading whitespace characters. -/
def dropLeadingSpaces : List Char → List Char
  | [] => []
  | c :: cs => if isPySpace c then dropLeadingSpaces cs else c :: cs

/-- Python's `area.strip()`: remove leading and trailing whitespace. -/
def pyStrip (s : String) : String :=
  String.mk ((dropLeadingSpaces (dropLeadingSpaces s.data).reverse).reverse)

/-- Line 134: `[area.strip() for area in focus_areas.split(",")]` — the
`focus_areas` list placed into `task_notes` and handed to the external
collaborator. -/
def parseFocusAreas (s : String) : List String := (pySplitComma s).map pyStrip

/-! ## Records, session state, store operations -/

/-- Lines 147-151: the record stored under one timestamp key: the raw topic,
the raw comma-separated focus-areas input (stored verbatim), and the result
tree returned by the collaborator. -/
structure ResearchRecord where
  topic : String
  focus_areas : String
  results : PyVal

/-- The mutable session state the program reads and writes:
`st.session_state.api_key` (line 58-59, `None` until a key is entered),
`st.session_state.research_results` (line 46-47, an insertion-ordered dict),
`st.session_state.current_view` (lines 101, 108, 155, 166-167), and
`st.session_state.selected_research` (lines 109, 156, 189; `none` models the
attribute being unset). -/
structure AppState where
  api_key : Option String
  research_results : List (String × ResearchRecord)
  current_view : String
  selected_research : Option String

/-- Python truthiness of the `api_key` value tested by
`if not st.session_state.api_key` (line 125): falsy when the key is unset
(`None`) or the empty string. -/
def pyFalsy : Option String → Bool
  | none => true
  | some s => s == ""

/-- Python dict assignment `m[k] = v` on an insertion-ordered dict: if `k`
is already a key its value is replaced in place (position preserved),
otherwise the pair is appended.  This is line 147,
`st.session_state.research_results[timestamp] = {...}`. -/
def dictInsert {α : Type} (m : List (String × α)) (k : String) (v : α) : List (String × α) :=
  if m.any (fun kv => kv.1 == k) then
    m.map (fun kv => if kv.1 == k then (k, v) else kv)
  else
    m ++ [(k, v)]

/-- Python dict lookup `m[k]`: `none` models the `KeyError` raised when the
key is absent. -/
def pyLookup {α : Type} (m : List (String × α)) (k : String) : Option α :=
  match m with
  | [] => none
  | (k', v) :: rest => if k' == k then some v else pyLookup rest k

/-- Lines 123-163: `conduct_research(topic, focus_areas)`.  The wall clock
second `datetime.now().strftime("%Y-%m-%d %H:%M:%S")` (line 146) enters as
`now`; the external collaborator `lab.conduct_research` (line 143) enters as
the function `lab`, applied to the parsed focus areas of the `task_notes`
built on line 134.  With a falsy API key the function returns
`(False, "API key required")` before anything else happens (lines 125-127).
On an external failure the `except` branch (lines 162-163) reports the error
with the state unchanged.  On success the result is stored under the
timestamp key (line 147, a plain dict assignment with no collision check),
and the view switches to the new record (lines 155-156).  The `st.rerun()`
on line 159 restarts the script, so the trailing success tuple is what the
source lines 161 would return. -/
def conduct_research (s : AppState) (topic focus_areas now : String)
    (lab : List String → Except String PyVal) : AppState × Bool × String :=
  if pyFalsy s.api_key then
    (s, false, "API key required")
  else
    match lab (parseFocusAreas focus_areas) with
    | .error e => (s, false, "Error during research: " ++ e)
    | .ok results =>
      ({ s with
          research_results :=
            dictInsert s.research_results now
              { topic := topic, focus_areas := focus_areas, results := results },
          current_view := "view_research",
          selected_research := some now },
       true, "Research completed successfully!")

/-- Lines 107-109: the sidebar button callback selecting a stored research
record.  It unconditionally sets `current_view = "view_research"` and
`selected_research = timestamp`; no existence check is performed. -/
def selectRecord (s : AppState) (id : String) : AppState :=
  { s with current_view := "view_research", selected_research := some id }

/-- Lines 188-190: what the `view_research` branch displays.  With no
selection nothing is shown; otherwise the record is looked up with
`st.session_state.research_results[st.session_state.selected_research]`,
where `none` models the uncaught `KeyError` on a missing key. -/
def viewLookup (s : AppState) : Option ResearchRecord :=
  match s.selected_research with
  | none => none
  | some id => pyLookup s.research_results id

/-- Lines 46-56: initialization of `research_results`.  The file system is
abstracted into two inputs: whether `research_results.json` exists, and the
outcome of `json.load` on it (`none` models any exception — unparsable
content or a read error — caught by the bare `except: pass`).  The second
component collects the user-facing warnings the branch emits; the source
emits none (the handler body is `pass`). -/
def loadResearchResults (fileExists : Bool)
    (parsedContents : Option (List (String × ResearchRecord))) :
    List (String × ResearchRecord) × List String :=
  if fileExists then
    match parsedContents with
    | some m => (m, [])
    | none => ([], [])
  else
    ([], [])

/-! ## Big-step rendering relation

`RendersTo t level out` is the call graph of `dict_to_markdown(t, level)`
read as an inductive derivation: one constructor per branch of the source.
A derivation exists exactly when the recursive procedure runs to completion
and produces `out`. -/

mutual

inductive RendersTo : PyVal → Nat → String → Prop where
  | scalar (isStr : Bool) (t : String) (level : Nat) :
      RendersTo (.scalar isStr t) level (pyIndent level ++ t ++ "\n\n")
  | dict (kvs : List (String × PyVal)) (level : Nat) (s : String) :
      EntriesRender kvs level s → RendersTo (.dict kvs) level s
  | list (xs : List PyVal) (level : Nat) (s : String) :
      ItemsRender xs level s → RendersTo (.list xs) level (s ++ "\n")

inductive EntriesRender : List (String × PyVal) → Nat → String → Prop where
  | nil (level : Nat) : EntriesRender [] level ""
  | consDict (k : String) (kvs : List (String × PyVal)) (level : Nat) (s₁ s₂ : String)
      (rest : List (String × PyVal)) :
      RendersTo (.dict kvs) (level + 1) s₁ → EntriesRender rest level s₂ →
      EntriesRender ((k, .dict kvs) :: rest) level
        ((pyIndent level ++ "### " ++ k ++ "\n\n" ++ s₁) ++ s₂)
  | consList (k : String) (xs : List PyVal) (level : Nat) (s₁ s₂ : String)
      (rest : List (String × PyVal)) :
      RendersTo (.list xs) (level + 1) s₁ → EntriesRender rest level s₂ →
      EntriesRender ((k, .list xs) :: rest) level
        ((pyIndent level ++ "### " ++ k ++ "\n\n" ++ s₁) ++ s₂)
  | consScalar (k : String) (isStr : Bool) (t : String) (level : Nat) (s₂ : String)
      (rest : List (String × PyVal)) :
      EntriesRender rest level s₂ →
      EntriesRender ((k, .scalar isStr t) :: rest) level
        (renderScalarEntry k isStr t level ++ s₂)

inductive ItemsRender : List PyVal → Nat → String → Prop where
  | nil (level : Nat) : ItemsRender [] level ""
  | consDict (kvs : List (String × PyVal)) (level : Nat) (s₁ s₂ : String)
      (rest : List PyVal) :
      RendersTo (.dict kvs) level s₁ → ItemsRender rest level s₂ →
      ItemsRender (.dict kvs :: rest) level (s₁ ++ s₂)
  | consList (xs : List PyVal) (level : Nat) (s₁ s₂ : String) (rest : List PyVal) :
      RendersTo (.list xs) level s₁ → ItemsRender rest level s₂ →
      ItemsRender (.list xs :: rest) level (s₁ ++ s₂)
  | consScalar (isStr : Bool) (t : String) (level : Nat) (s₂ : String)
      (rest : List PyVal) :
      ItemsRender rest level s₂ →
      ItemsRender (.scalar isStr t :: rest) level
        ((pyIndent level ++ "- " ++ t ++ "\n") ++ s₂)

end

/-! ## Sample values used by concrete witnesses and counterexamples -/

/-- Scenario A input: `{"metrics": {"accuracy": 0.9, "notes": "**done**"}}`. -/
def metricsTree : PyVal :=
  .dict [("metrics", .dict [("accuracy", .scalar false "0.9"),
                            ("notes", .scalar true "**done**")])]

/-- A mapping with keys at nesting depths 0 and 1:
`{"a": {"b": "v"}}`. -/
def twoLevelTree : PyVal := .dict [("a", .dict [("b", .scalar true "v")])]

/-- A sequence whose single element is a mapping: `[{"k": "v"}]`. -/
def listWithDict : PyVal := .list [.dict [("k", .scalar true "v")]]

/-- A mapping holding the non-string scalar `-1`, whose textual form
contains the recognized indicator `-`: `{"n": -1}`. -/
def negOneTree : PyVal := .dict [("n", .scalar false "-1")]

/-- A record as stored by line 147. -/
def sampleRecord : ResearchRecord :=
  { topic := "X", focus_areas := "a,b", results := .scalar true "r" }

/-- A session displaying the stored record `id1`: the state the Scenario C
claim starts from. -/
def viewState : AppState :=
  { api_key := some "sk"
    research_results := [("id1", sampleRecord)]
    current_view := "view_research"
    selected_research := some "id1" }

/-- A session in which no API key has been entered. -/
def noKeyState : AppState :=
  { api_key := none
    research_results := []
    current_view := "new_research"
    selected_research := none }

/-- A session holding a key, with an empty store, about to run research. -/
def demoStart : AppState :=
  { api_key := some "sk"
    research_results := []
    current_view := "new_research"
    selected_research := none }

/-- One wall-clock second, formatted as on line 146. -/
def demoTs : String := "2025-01-01 12:00:00"

/-- An external collaborator run that succeeds with result `"r1"`. -/
def demoLab1 : List String → Except String PyVal := fun _ => .ok (.scalar true "r1")

/-- An external collaborator run that succeeds with result `"r2"`. -/
def demoLab2 : List String → Except String PyVal := fun _ => .ok (.scalar true "r2")

/-- State after a first successful research inside second `demoTs`. -/
def demoS1 : AppState := (conduct_research demoStart "first topic" "a" demoTs demoLab1).1

/-- State after a second successful research inside the same second. -/
def demoS2 : AppState := (conduct_research demoS1 "second topic" "b" demoTs demoLab2).1

/-! ## Helper lemmas -/

mutual

/-- The renderer's value is derivable: every finite tree has a complete
big-step derivation producing exactly `dict_to_markdown t level`. -/
theorem rendersTo_total : (t : PyVal) → (level : Nat) →
    RendersTo t level (dict_to_markdown t level)
  | .scalar isStr t, level => RendersTo.scalar isStr t level
  | .dict kvs, level => RendersTo.dict kvs level _ (entriesRender_total kvs level)
  | .list xs, level => RendersTo.list xs level _ (itemsRender_total xs level)

/-- Every entry list has a complete derivation producing `renderEntries`. -/
theorem entriesRender_total : (kvs : List (String × PyVal)) → (level : Nat) →
    EntriesRender kvs level (renderEntries kvs level)
  | [], level => EntriesRender.nil level
  | (k, .dict d) :: rest, level =>
    EntriesRender.consDict k d level _ _ rest
      (rendersTo_total (.dict d) (level + 1)) (entriesRender_total rest level)
  | (k, .list xs) :: rest, level =>
    EntriesRender.consList k xs level _ _ rest
      (rendersTo_total (.list xs) (level + 1)) (entriesRender_total rest level)
  | (k, .scalar isStr t) :: rest, level =>
    EntriesRender.consScalar k isStr t level _ rest (entriesRender_total rest level)

/-- Every item list has a complete derivation producing `renderItems`. -/
theorem itemsRender_total : (xs : List PyVal) → (level : Nat) →
    ItemsRender xs level (renderItems xs level)
  | [], level => ItemsRender.nil level
  | .dict d :: rest, level =>
    ItemsRender.consDict d level _ _ rest
      (rendersTo_total (.dict d) level) (itemsRender_total rest level)
  | .list xs :: rest, level =>
    ItemsRender.consList xs level _ _ rest
      (rendersTo_total (.list xs) level) (itemsRender_total rest level)
  | .scalar isStr t :: rest, level =>
    ItemsRender.consScalar isStr t level _ rest (itemsRender_total rest level)

end

/-- The depth-`n` chain really has nesting depth `n`. -/
theorem nestTree_depth : ∀ n : Nat, treeDepth (nestTree n) = n
  | 0 => rfl
  | n + 1 => by
    have e : treeDepth (nestTree (n + 1)) = max (treeDepth (nestTree n)) 0 + 1 := rfl
    rw [e, Nat.max_zero, nestTree_depth n]

/-- The innermost scalar of the depth-`n` chain appears in the rendered
output at every depth `n` and every starting level: nothing is ever
truncated. -/
theorem nestContains : ∀ (n level : Nat),
    ∃ a b, dict_to_markdown (nestTree n) level = a ++ "x" ++ b
  | 0, level => ⟨pyIndent level, "\n\n", rfl⟩
  | 1, level => by
    refine ⟨pyIndent level ++ "### " ++ "k" ++ "\n\n```\n", "\n```\n\n", ?_⟩
    have e : dict_to_markdown (nestTree 1) level
        = renderScalarEntry "k" true "x" level ++ "" := rfl
    rw [e, String.append_empty]
    rfl
  | n + 2, level => by
    obtain ⟨a, b, ih⟩ := nestContains (n + 1) (level + 1)
    refine ⟨(pyIndent level ++ "### " ++ "k" ++ "\n\n") ++ a, b, ?_⟩
    have e : dict_to_markdown (nestTree (n + 2)) level
        = (pyIndent level ++ "### " ++ "k" ++ "\n\n"
            ++ dict_to_markdown (nestTree (n + 1)) (level + 1)) ++ "" := rfl
    rw [e, String.append_empty, ih]
    simp [String.append_assoc]

/-- A list of string scalars renders as one bullet line per element, in
order. -/
theorem renderItems_scalars : ∀ (level : Nat) (strs : List String),
    renderItems (strs.map (PyVal.scalar true)) level
      = strConcat (strs.map fun t => pyIndent level ++ "- " ++ t ++ "\n")
  | _, [] => rfl
  | level, t :: rest => by
    have e : renderItems ((t :: rest).map (PyVal.scalar true)) level
        = (pyIndent level ++ "- " ++ t ++ "\n")
            ++ renderItems (rest.map (PyVal.scalar true)) level := rfl
    rw [e, renderItems_scalars level rest]
    rfl

/-- Python's `split` never returns an empty list. -/
theorem splitCommaAux_ne_nil : ∀ (cs acc : List Char), splitCommaAux cs acc ≠ []
  | [], acc => by simp [splitCommaAux]
  | c :: cs, acc => by
    by_cases h : (c == ',') = true
    · simp [splitCommaAux, h]
    · simp only [splitCommaAux, if_neg h]
      exact splitCommaAux_ne_nil cs (c :: acc)

/-! ## Claim theorems -/

/-- Claim C10: the renderer terminates and returns a text for every finite
input tree — any nesting of mappings, sequences, and scalars, with no
precondition on depth — because its recursion is structural on the tree:
every tree has a complete big-step derivation of the recursive procedure,
producing exactly the renderer's output. -/
theorem dict_to_markdown_total (t : PyVal) (level : Nat) :
    RendersTo t level (dict_to_markdown t level) :=
  rendersTo_total t level

/-- Claim C2, counterexample: the source renderer has no depth bound of 64
(or any other) and no truncation placeholder.  The tree of nesting depth
100 renders with the innermost scalar `"x"` — content far beyond the
claimed bound — present in the output, so the output is not truncated. -/
theorem deep_nesting_not_truncated_at_depth_100 :
    treeDepth (nestTree 100) = 100 ∧
    ∃ a b, dict_to_markdown (nestTree 100) 0 = a ++ "x" ++ b :=
  ⟨nestTree_depth 100, nestContains 100 0⟩

/-- Claim C2 (amended): the renderer maintains no depth bound and never
truncates; recursion is structural over the whole tree, so for every `n`
the chain of `n` nested mappings renders with its innermost scalar present
in the output. -/
theorem render_unbounded_depth_contains_leaf (n level : Nat) :
    treeDepth (nestTree n) = n ∧
    ∃ a b, dict_to_markdown (nestTree n) level = a ++ "x" ++ b :=
  ⟨nestTree_depth n, nestContains n level⟩

/-- Claim C3, counterexample: in `{"a": {"b": "v"}}` the key `a` at nesting
depth 0 and the key `b` at nesting depth 1 — both below any claimed cap —
receive the *same* heading marker `### `; no deeper marker such as `####`
ever appears.  Heading level does not scale with nesting depth, refuting
"two keys at different nesting depths below the cap receive headings of
different levels". -/
theorem heading_marker_constant_across_levels :
    dict_to_markdown twoLevelTree 0 = "### a\n\n  ### b\n\n```\nv\n```\n\n" ∧
    pyIn "####" (dict_to_markdown twoLevelTree 0) = false :=
  ⟨rfl, rfl⟩

/-- Claim C3 (amended): every key of every mapping, at every nesting level,
is emitted with the one fixed heading marker `### `; only the two-space
indentation before the marker varies with the level. -/
theorem heading_marker_independent_of_level (level : Nat) (k : String) (v : PyVal)
    (rest : List (String × PyVal)) :
    ∃ tail, dict_to_markdown (.dict ((k, v) :: rest)) level
      = pyIndent level ++ "### " ++ k ++ tail := by
  match v with
  | .dict d =>
    refine ⟨"\n\n" ++ dict_to_markdown (.dict d) (level + 1) ++ renderEntries rest level, ?_⟩
    have e : dict_to_markdown (.dict ((k, .dict d) :: rest)) level
        = (pyIndent level ++ "### " ++ k ++ "\n\n" ++ dict_to_markdown (.dict d) (level + 1))
            ++ renderEntries rest level := rfl
    rw [e]
    simp [String.append_assoc]
  | .list xs =>
    refine ⟨"\n\n" ++ dict_to_markdown (.list xs) (level + 1) ++ renderEntries rest level, ?_⟩
    have e : dict_to_markdown (.dict ((k, .list xs) :: rest)) level
        = (pyIndent level ++ "### " ++ k ++ "\n\n" ++ dict_to_markdown (.list xs) (level + 1))
            ++ renderEntries rest level := rfl
    rw [e]
    simp [String.append_assoc]
  | .scalar isStr t =>
    have e : dict_to_markdown (.dict ((k, .scalar isStr t) :: rest)) level
        = renderScalarEntry k isStr t level ++ renderEntries rest level := rfl
    by_cases hM : (isStr && hasMarkdownMarker t) = true
    · refine ⟨"\n\n" ++ t ++ "\n\n" ++ renderEntries rest level, ?_⟩
      rw [e]
      simp [renderScalarEntry, hM, String.append_assoc]
    · refine ⟨"\n\n```\n" ++ t ++ "\n```\n\n" ++ renderEntries rest level, ?_⟩
      rw [e]
      simp [renderScalarEntry, hM, String.append_assoc]

/-- Claim C4, counterexample: the sequence `[{"k": "v"}]` has one element,
yet its rendering contains no bullet at all (no `-` occurs in the output),
and the mapping element is rendered at the same level (no indentation)
rather than nested under a bullet one level deeper.  This refutes "exactly
one bullet item per element". -/
theorem sequence_container_element_no_bullet :
    dict_to_markdown listWithDict 0 = "### k\n\n```\nv\n```\n\n\n" ∧
    pyIn "-" (dict_to_markdown listWithDict 0) = false :=
  ⟨rfl, rfl⟩

/-- Claim C4 (amended): a sequence of scalar elements renders as exactly one
bullet line per element in element order (so `["a", "b"]` renders `- a`
then `- b`), but an element that is itself a mapping is recursively
rendered at the *same* level with no bullet and no extra indentation; a
single newline is appended after the whole sequence. -/
theorem sequence_rendering_amended :
    dict_to_markdown (.list [.scalar true "a", .scalar true "b"]) 0 = "- a\n- b\n\n" ∧
    (∀ (level : Nat) (strs : List String),
      dict_to_markdown (.list (strs.map (PyVal.scalar true))) level
        = strConcat (strs.map fun t => pyIndent level ++ "- " ++ t ++ "\n") ++ "\n") ∧
    (∀ (level : Nat) (kvs : List (String × PyVal)),
      dict_to_markdown (.list [.dict kvs]) level
        = dict_to_markdown (.dict kvs) level ++ "\n") := by
  refine ⟨rfl, ?_, ?_⟩
  · intro level strs
    have e : dict_to_markdown (.list (strs.map (PyVal.scalar true))) level
        = renderItems (strs.map (PyVal.scalar true)) level ++ "\n" := rfl
    rw [e, renderItems_scalars]
  · intro level kvs
    have e : dict_to_markdown (.list [.dict kvs]) level
        = (dict_to_markdown (.dict kvs) level ++ "") ++ "\n" := rfl
    rw [e, String.append_empty]

/-- Claim C5, counterexample: the non-string scalar `-1` under the key
`"n"` has textual form `-1`, which contains the recognized indicator `-`,
yet it is wrapped in a fenced code block and not emitted verbatim: the
verbatim branch (line 213) additionally requires `isinstance(value, str)`. -/
theorem nonstring_scalar_with_marker_fenced :
    hasMarkdownMarker "-1" = true ∧
    dict_to_markdown negOneTree 0 = "### n\n\n```\n-1\n```\n\n" ∧
    dict_to_markdown negOneTree 0 ≠ "### n\n\n-1\n\n" :=
  ⟨rfl, rfl, by decide⟩

/-- Claim C5 (amended): a *string* scalar under a mapping key whose textual
form contains a recognized indicator substring is emitted verbatim, a
string scalar without one is fenced, and every non-string scalar is fenced
regardless of its textual form; Scenario A,
`{"metrics": {"accuracy": 0.9, "notes": "**done**"}}`, fences `0.9` and
emits `**done**` verbatim. -/
theorem scalar_rendering_string_guard :
    dict_to_markdown metricsTree 0
      = "### metrics\n\n  ### accuracy\n\n```\n0.9\n```\n\n  ### notes\n\n**done**\n\n" ∧
    (∀ (level : Nat) (k t : String), hasMarkdownMarker t = true →
      dict_to_markdown (.dict [(k, .scalar true t)]) level
        = pyIndent level ++ "### " ++ k ++ "\n\n" ++ t ++ "\n\n") ∧
    (∀ (level : Nat) (k t : String), hasMarkdownMarker t = false →
      dict_to_markdown (.dict [(k, .scalar true t)]) level
        = pyIndent level ++ "### " ++ k ++ "\n\n```\n" ++ t ++ "\n```\n\n") ∧
    (∀ (level : Nat) (k t : String),
      dict_to_markdown (.dict [(k, .scalar false t)]) level
        = pyIndent level ++ "### " ++ k ++ "\n\n```\n" ++ t ++ "\n```\n\n") := by
  refine ⟨rfl, ?_, ?_, ?_⟩
  · intro level k t hM
    have e : dict_to_markdown (.dict [(k, .scalar true t)]) level
        = renderScalarEntry k true t level ++ "" := rfl
    rw [e, String.append_empty]
    simp [renderScalarEntry, hM]
  · intro level k t hM
    have e : dict_to_markdown (.dict [(k, .scalar true t)]) level
        = renderScalarEntry k true t level ++ "" := rfl
    rw [e, String.append_empty]
    simp [renderScalarEntry, hM]
  · intro level k t
    have e : dict_to_markdown (.dict [(k, .scalar false t)]) level
        = renderScalarEntry k false t level ++ "" := rfl
    rw [e, String.append_empty]
    rfl

/-- Witness for the amended claim C5: the string scalar `"**x**"` contains
the indicator `**` and is emitted verbatim. -/
theorem scalar_rendering_string_guard_witness :
    hasMarkdownMarker "**x**" = true ∧
    dict_to_markdown (.dict [("k", PyVal.scalar true "**x**")]) 0
      = pyIndent 0 ++ "### " ++ "k" ++ "\n\n" ++ "**x**" ++ "\n\n" :=
  ⟨rfl, scalar_rendering_string_guard.2.1 0 "k" "**x**" rfl⟩

/-- Claim C1, evaluation of the code at the failing input: two successful
research runs inside the same wall-clock second (identifier `demoTs`).
Line 147 is a plain dict assignment with no collision check, so the second
insert *replaces* the first record instead of appending a disambiguated
identifier: the store holds one key, not two, and the first record is
silently lost. -/
theorem conduct_research_same_second_overwrites :
    demoS1.research_results.length = 1 ∧
    demoS2.research_results.length = 1 ∧
    (pyLookup demoS2.research_results demoTs).map ResearchRecord.topic
      = some "second topic" ∧
    (pyLookup demoS2.research_results demoTs).map ResearchRecord.topic
      ≠ some "first topic" ∧
    ¬ demoS2.research_results.length = demoS1.research_results.length + 1 :=
  ⟨rfl, rfl, rfl, by decide, by decide⟩

/-- Claim C6, counterexample: from `RecordView(id1)` (state `viewState`),
selecting the absent identifier `"nonexistent"` does *not* leave the
controller in `RecordView(id1)`: the handler transitions unconditionally to
`RecordView("nonexistent")`, and the subsequent record lookup of the view
branch fails (an uncaught `KeyError` in the source), with no `NotFound`
handling. -/
theorem select_nonexistent_changes_state :
    viewState.selected_research = some "id1" ∧
    (selectRecord viewState "nonexistent").selected_research = some "nonexistent" ∧
    (selectRecord viewState "nonexistent").selected_research ≠ some "id1" ∧
    viewLookup (selectRecord viewState "nonexistent") = none :=
  ⟨rfl, rfl, by decide, rfl⟩

/-- Claim C6 (amended): selecting an identifier performs no existence
check: it always transitions to `RecordView(id)` (leaving the store
untouched), and when the identifier is absent from the store the view
branch's record lookup then fails — an uncaught `KeyError`, not a handled
`NotFound` with unchanged state.  (In the UI, selection buttons exist only
for identifiers present in the store.) -/
theorem select_unconditional_transition (s : AppState) (id : String)
    (h : pyLookup s.research_results id = none) :
    (selectRecord s id).research_results = s.research_results ∧
    (selectRecord s id).current_view = "view_research" ∧
    (selectRecord s id).selected_research = some id ∧
    viewLookup (selectRecord s id) = none := by
  refine ⟨rfl, rfl, rfl, ?_⟩
  simp [viewLookup, selectRecord, h]

/-- Witness for the amended claim C6, at the concrete state `viewState`
and the absent identifier `"nonexistent"`. -/
theorem select_unconditional_transition_witness :
    pyLookup viewState.research_results "nonexistent" = none ∧
    ((selectRecord viewState "nonexistent").research_results = viewState.research_results ∧
     (selectRecord viewState "nonexistent").current_view = "view_research" ∧
     (selectRecord viewState "nonexistent").selected_research = some "nonexistent" ∧
     viewLookup (selectRecord viewState "nonexistent") = none) :=
  ⟨rfl, select_unconditional_transition viewState "nonexistent" rfl⟩

/-- Claim C7, counterexample: when the storage file exists but is
unparsable, the load yields the empty store *silently*: the warning list is
empty, because the handler on lines 54-56 is a bare `except: pass` that
reports nothing, refuting "reports a soft warning". -/
theorem load_unparsable_no_warning :
    (loadResearchResults true none).1 = [] ∧
    (loadResearchResults true none).2 = [] :=
  ⟨rfl, rfl⟩

/-- Claim C7 (amended): load is total and soft-failing — an absent file
yields the empty mapping, an unparsable file yields the empty mapping, a
parsable file yields its contents, and no case raises or reports anything:
the failure is swallowed silently (no warning is emitted). -/
theorem load_total_soft_fail :
    (∀ parsed, loadResearchResults false parsed = ([], [])) ∧
    loadResearchResults true none = ([], []) ∧
    (∀ m, loadResearchResults true (some m) = (m, [])) :=
  ⟨fun _ => rfl, rfl, fun _ => rfl⟩

/-- Claim C8: with an absent (`None`) or empty credential,
`conduct_research` fails with the missing-credential error before any
external call — the outcome is the same for *every* collaborator function
`lab` — and returns the session state unchanged: same store (hence same
size) and same controller state. -/
theorem conduct_research_missing_credential (s : AppState)
    (topic focus_areas now : String) (lab : List String → Except String PyVal)
    (h : s.api_key = none ∨ s.api_key = some "") :
    conduct_research s topic focus_areas now lab = (s, false, "API key required") := by
  rcases h with h | h <;> simp [conduct_research, pyFalsy, h]

/-- Witness for claim C8, at the concrete key-less session `noKeyState`. -/
theorem conduct_research_missing_credential_witness :
    (noKeyState.api_key = none ∨ noKeyState.api_key = some "") ∧
    conduct_research noKeyState "topic" "a,b" demoTs demoLab1
      = (noKeyState, false, "API key required") :=
  ⟨Or.inl rfl,
   conduct_research_missing_credential noKeyState "topic" "a,b" demoTs demoLab1 (Or.inl rfl)⟩

/-- Claim C9, counterexample: line 134 splits on commas and strips each
field but discards nothing, so `"a,,b,"` parses to `["a", "", "b", ""]` —
with two empty strings — and not to `["a", "b"]`. -/
theorem parse_focus_areas_keeps_empties :
    parseFocusAreas "a,,b," = ["a", "", "b", ""] ∧
    (["a", "", "b", ""] : List String) ≠ ["a", "b"] :=
  ⟨rfl, by decide⟩

/-- Claim C9 (amended): the focus-areas list handed to the collaborator is
obtained by splitting on comma and trimming each entry, with empty entries
*kept*: the parsed list always has exactly one entry per comma-separated
field (never fewer, and never none). -/
theorem parse_focus_areas_amended :
    parseFocusAreas "a,,b," = ["a", "", "b", ""] ∧
    parseFocusAreas " a , b " = ["a", "b"] ∧
    (∀ s, (parseFocusAreas s).length = (pySplitComma s).length) ∧
    (∀ s, parseFocusAreas s ≠ []) := by
  refine ⟨rfl, rfl, ?_, ?_⟩
  · intro s
    simp [parseFocusAreas]
  · intro s h
    have hne := splitCommaAux_ne_nil s.data []
    simp only [parseFocusAreas, pySplitComma, List.map_eq_nil_iff] at h
    exact hne h
